import Mathlib

/-!
Verification of the BlockRoyale feedback-bot credential-lifecycle and
delivery-resilience core, shallowly embedded from the TypeScript source
(src/oauth2Setup.ts, src/index.ts, src/tokenStorage.ts).

Conventions of the embedding:
* JavaScript error values caught in a catch block are modelled by `JsError`:
  an optional `code`, an optional `status` (each a string or a number) and a
  `message` string (every JS Error carries a string message).
* Wall-clock instants are milliseconds since the epoch, as `Int`
  (JS `Date.now()`); `new Date(Date.now() - 5 * 60 * 1000)` becomes
  `now - 300000`.
* Network calls are suspension points whose outcomes are supplied as oracle
  arguments (`Option JsError` for calls whose value is unused, or
  `Except JsError α`); the functions become deterministic in those oracles.
* Fire-and-forget notifications (Telegram) swallow their own errors in the
  source, so they are modelled by counting how many were fired.
-/

namespace BlockRoyale

/-- A JS scalar that can appear in the code or status field of an error:
the source compares codes against both strings (like ECONNRESET) and
HTTP numbers (like 503). -/
inductive ErrVal where
  | s (v : String)
  | n (v : Nat)
deriving DecidableEq

/-- A caught JS error object: optional code, optional status, string message. -/
structure JsError where
  code : Option ErrVal
  status : Option ErrVal
  message : String
deriving DecidableEq

/-- Whether the pattern list is an initial segment of the text list. -/
def charsStarts : List Char → List Char → Bool
  | [], _ => true
  | _ :: _, [] => false
  | p :: ps, c :: cs => p == c && charsStarts ps cs

/-- Whether the pattern occurs as a contiguous run inside the text. -/
def charsHasSub (pat : List Char) : List Char → Bool
  | [] => pat.isEmpty
  | c :: cs => charsStarts pat (c :: cs) || charsHasSub pat cs

/-- JS `haystack.includes(needle)` on strings. -/
def jsIncludes (hay pat : String) : Bool :=
  charsHasSub pat.data hay.data

/-- JS `s.toLowerCase()` restricted to the ASCII range used by the source. -/
def jsToLower (s : String) : String :=
  ⟨s.data.map Char.toLower⟩

/-- Case-insensitive containment, as in
`error.message.toLowerCase().includes(msg.toLowerCase())`. -/
def jsIncludesCI (hay pat : String) : Bool :=
  jsIncludes (jsToLower hay) (jsToLower pat)

/-- JS `list.includes(v)` where `v` is an optional field (`undefined` is
never an element of the code lists of the source). -/
def optInList (v : Option ErrVal) (l : List ErrVal) : Bool :=
  match v with
  | some x => l.contains x
  | none => false

/-- The retryable codes table of GmailService.isRetryableError. -/
def retryableCodes : List ErrVal :=
  [.s "ECONNRESET", .s "ETIMEDOUT", .s "ENOTFOUND", .s "EAI_AGAIN",
   .n 500, .n 502, .n 503, .n 429]

/-- GmailService.isRetryableError: code or status in the retryable table, or
the message mentions timeout, network or quota. -/
def isRetryableError (e : JsError) : Bool :=
  optInList e.code retryableCodes || optInList e.status retryableCodes ||
  jsIncludes e.message "timeout" || jsIncludes e.message "network" ||
  jsIncludes e.message "quota"

/-- The auth error code table of GmailService.isAuthenticationError. -/
def authErrorVals : List ErrVal :=
  [.s "invalid_grant", .s "invalid_request", .s "unauthorized_client",
   .s "access_denied", .s "invalid_scope", .n 401, .n 403]

/-- The auth message substrings of GmailService.isAuthenticationError. -/
def authMessages : List String :=
  ["Token has been expired or revoked", "invalid_grant", "unauthorized",
   "forbidden", "invalid refresh token", "refresh token expired"]

/-- GmailService.isAuthenticationError: code or status in the auth table, or
the lowercased message contains one of the known auth substrings. -/
def isAuthenticationError (e : JsError) : Bool :=
  optInList e.code authErrorVals || optInList e.status authErrorVals ||
  authMessages.any (fun m => jsIncludesCI e.message m)

/-- The mutable token-guard fields of GmailService: isTokenValid,
lastTokenCheck (ms) and notificationSent. -/
structure GuardState where
  isTokenValid : Bool
  lastTokenCheck : Int
  notificationSent : Bool
deriving DecidableEq

/-- GmailService.handleAuthError: when notificationSent is still false it is
set and the escalation (Telegram alert plus reAuthCallback) fires once;
otherwise nothing happens.  Returns the new state and how many escalation
notifications fired.  notifyAuthError swallows its own errors. -/
def handleAuthError (st : GuardState) : GuardState × Nat :=
  if st.notificationSent then (st, 0)
  else (⟨st.isTokenValid, st.lastTokenCheck, true⟩, 1)

/-- Result of GmailService.validateToken: the new guard state, the returned
boolean, how many live probes were performed (0 on the cache short-circuit,
1 otherwise) and how many escalation notifications fired. -/
structure ValidateResult where
  state : GuardState
  ok : Bool
  probes : Nat
  notifications : Nat
deriving DecidableEq

/-- GmailService.validateToken.  `probe` is the outcome of the live probe
(getAccessToken plus users.getProfile): `none` on success, `some e` when it
threw `e` (a null token throws a plain Error as well).  The cached flag with
a check newer than five minutes short-circuits without probing; a successful
probe refreshes lastTokenCheck; an auth-class failure invalidates the token
and runs handleAuthError; any failure returns false. -/
def validateToken (st : GuardState) (now : Int) (probe : Option JsError) :
    ValidateResult :=
  if st.isTokenValid && decide (st.lastTokenCheck > now - 300000) then
    ⟨st, true, 0, 0⟩
  else
    match probe with
    | none => ⟨⟨true, now, st.notificationSent⟩, true, 1, 0⟩
    | some e =>
      if isAuthenticationError e then
        let p := handleAuthError ⟨false, st.lastTokenCheck, st.notificationSent⟩
        ⟨p.1, false, 1, p.2⟩
      else
        ⟨st, false, 1, 0⟩

/-- Successful provider send data (response.data.id / threadId). -/
structure SendOk where
  messageId : Option String
  threadId : Option String
deriving DecidableEq

/-- The structured result value of GmailService.sendEmail (the wall-clock
timestamp string is omitted).  A missing requiresReAuth field is `false`. -/
structure GmailEmailResponse where
  success : Bool
  messageId : Option String
  threadId : Option String
  error : Option String
  errorCode : Option ErrVal
  requiresReAuth : Bool
deriving DecidableEq

/-- The response returned when validateToken fails before any attempt. -/
def authRequiredResponse : GmailEmailResponse :=
  ⟨false, none, none,
   some "Gmail authentication failed - re-authorization required",
   some (.s "AUTH_REQUIRED"), true⟩

/-- The response returned on a successful provider call. -/
def sentResponse (r : SendOk) : GmailEmailResponse :=
  ⟨true, r.messageId, r.threadId, none, none, false⟩

/-- The response returned when an attempt fails with an auth-class error. -/
def authFailResponse (e : JsError) : GmailEmailResponse :=
  ⟨false, none, none,
   some "Authentication failed - re-authorization required", e.code, true⟩

/-- The response returned on the last attempt or on a non-retryable error. -/
def attemptFailResponse (e : JsError) : GmailEmailResponse :=
  ⟨false, none, none, some e.message, e.code, false⟩

/-- The response after the for-loop exits (only reachable with zero
maxRetries). -/
def maxRetriesResponse : GmailEmailResponse :=
  ⟨false, none, none, some "Max retries exceeded", none, false⟩

/-- Observable outcome of one sendEmail invocation: final guard state, the
returned response, the number of provider-call attempts made, the backoff
waits in ms in order, and how many escalation notifications fired. -/
structure SendResult where
  state : GuardState
  response : GmailEmailResponse
  attempts : Nat
  waits : List Nat
  notifications : Nat
deriving DecidableEq

/-- The retry for-loop of GmailService.sendEmail.  `oracle k` is the outcome
of provider-call attempt number `k`; `fuel` is the number of attempts still
allowed including the current one, so `fuel = 1` is the last attempt
(`attempt === maxRetries`).  On success the guard is revalidated and the
notification suppression cleared; on an auth-class error the guard is
invalidated, handleAuthError runs and the loop stops; on a retryable
non-final failure the loop waits `2^(attempt-1)` seconds and retries;
otherwise the captured message and code are returned. -/
def sendLoop (oracle : Nat → Except JsError SendOk) :
    Nat → Nat → GuardState → SendResult
  | _, 0, st => ⟨st, maxRetriesResponse, 0, [], 0⟩
  | attempt, fuel + 1, st =>
    match oracle attempt with
    | .ok r => ⟨⟨true, st.lastTokenCheck, false⟩, sentResponse r, 1, [], 0⟩
    | .error e =>
      if isAuthenticationError e then
        let p := handleAuthError ⟨false, st.lastTokenCheck, st.notificationSent⟩
        ⟨p.1, authFailResponse e, 1, [], p.2⟩
      else if fuel == 0 || !isRetryableError e then
        ⟨st, attemptFailResponse e, 1, [], 0⟩
      else
        let rest := sendLoop oracle (attempt + 1) fuel st
        ⟨rest.state, rest.response, rest.attempts + 1,
         2 ^ (attempt - 1) * 1000 :: rest.waits, rest.notifications⟩

/-- GmailService.sendEmail: first validateToken; if it fails, return the
AUTH_REQUIRED response with no provider attempt; otherwise run the retry
loop with attempts 1..maxRetries. -/
def sendEmail (st : GuardState) (now : Int) (probe : Option JsError)
    (oracle : Nat → Except JsError SendOk) (maxRetries : Nat) : SendResult :=
  let v := validateToken st now probe
  if !v.ok then
    ⟨v.state, authRequiredResponse, 0, [], v.notifications⟩
  else
    let r := sendLoop oracle 1 maxRetries v.state
    ⟨r.state, r.response, r.attempts, r.waits,
     v.notifications + r.notifications⟩

/-- Result of GmailService.refreshToken: new state, returned boolean and
escalation notifications fired. -/
structure RefreshResult where
  state : GuardState
  ok : Bool
  notifications : Nat
deriving DecidableEq

/-- GmailService.refreshToken.  `refreshRes` is the outcome of
oauth2Client.refreshAccessToken (none on success); on success the token is
revalidated via validateToken and, when that passes, isTokenValid is set and
notificationSent cleared so future failures re-alert; on an auth-class
refresh failure handleAuthError runs; false in all failure cases. -/
def refreshToken (st : GuardState) (now : Int) (refreshRes : Option JsError)
    (probe : Option JsError) : RefreshResult :=
  match refreshRes with
  | none =>
    let v := validateToken st now probe
    if v.ok then
      ⟨⟨true, v.state.lastTokenCheck, false⟩, true, v.notifications⟩
    else
      ⟨v.state, false, v.notifications⟩
  | some e =>
    if isAuthenticationError e then
      let p := handleAuthError st
      ⟨p.1, false, p.2⟩
    else
      ⟨st, false, 0⟩

/-- The snapshot returned by GmailService.getTokenStatus. -/
structure TokenStatusSnap where
  valid : Bool
  lastCheck : Int
  needsReAuth : Bool
deriving DecidableEq

/-- GmailService.getTokenStatus. -/
def getTokenStatus (st : GuardState) : TokenStatusSnap :=
  ⟨st.isTokenValid, st.lastTokenCheck, !st.isTokenValid⟩

/-! Fallback queue (EmailFallbackService in src/index.ts). -/

/-- An entry of the failedEmails list.  `oid` models JS object identity:
the source removes entries with `email !== failedEmail`, a reference
comparison, and each pushed object is a fresh reference, so distinct pushes
carry distinct oids.  The enqueued timestamp is omitted (wall clock). -/
structure FallbackEntry where
  oid : Nat
  email : String
  name : String
  message : String
  isResponse : Bool
deriving DecidableEq

/-- Outcome of re-invoking send for one queued entry during a retry pass:
the returned response had success true, success false, or the call threw. -/
inductive RetryOutcome where
  | ok
  | failed
  | raised
deriving DecidableEq

/-- Observable outcome of EmailFallbackService.retryFailedEmails: the live
list afterwards, the success and failed counters, and whether the summary
notification was sent. -/
structure DrainResult where
  live : List FallbackEntry
  succeeded : Nat
  failedCount : Nat
  notified : Bool
deriving DecidableEq

/-- The for-loop of retryFailedEmails over a snapshot of the entries: on a
successful resend the exact entry is filtered out of the live list and the
success counter bumped, otherwise (failure or thrown error) the entry is
left and the failed counter bumped. -/
def drainGo (f : FallbackEntry → RetryOutcome) :
    List FallbackEntry → List FallbackEntry → List FallbackEntry × Nat × Nat
  | [], live => (live, 0, 0)
  | e :: rest, live =>
    match f e with
    | .ok =>
      let r := drainGo f rest (live.filter (fun x => decide (x ≠ e)))
      (r.1, r.2.1 + 1, r.2.2)
    | _ =>
      let r := drainGo f rest live
      (r.1, r.2.1, r.2.2 + 1)

/-- EmailFallbackService.retryFailedEmails: returns early when the queue is
empty (no summary notification), otherwise iterates a snapshot of the queue
and finally sends a summary notification with the counters. -/
def retryFailedEmails (f : FallbackEntry → RetryOutcome)
    (queue : List FallbackEntry) : DrainResult :=
  if queue.isEmpty then ⟨queue, 0, 0, false⟩
  else
    let r := drainGo f queue queue
    ⟨r.1, r.2.1, r.2.2, true⟩

/-! Re-authorization flow: the /oauth/callback route of createOAuth2Routes
in src/oauth2Setup.ts, and saveRefreshToken of src/tokenStorage.ts. -/

/-- JS truthiness of an optional string: undefined and the empty string are
falsy. -/
def jsTruthyS : Option String → Bool
  | none => false
  | some s => !(s == "")

/-- The credentials returned by the token exchange; only the refresh token
matters to the flow. -/
structure GoogleTokens where
  refresh_token : Option String
deriving DecidableEq

/-- The identity returned by the userinfo endpoint; verified flag and name
are fetched but never branched on. -/
structure GoogleUserInfo where
  email : Option String
deriving DecidableEq

/-- The distinct result pages the callback can render. -/
inductive OAuthCallbackPage where
  | errorPage (msg : String)
  | wrongAccountPage (usedEmail : Option String) (requiredEmail : String)
  | successPage (email : Option String)
deriving DecidableEq

/-- The single allow-listed address hard-coded in the callback route. -/
def requiredEmail : String := "supprtblockroyale@gmail.com"

/-- The persisted credential record of tokenStorage (tokens.json); the
updatedAt wall-clock field is omitted. -/
structure TokenFileData where
  refreshToken : String
  updatedBy : String
deriving DecidableEq

/-- Observable outcome of one /oauth/callback request: the page rendered,
the credential store afterwards, and how many times saveRefreshToken was
invoked. -/
structure OAuthCallbackResult where
  page : OAuthCallbackPage
  store : Option TokenFileData
  saveCalls : Nat
deriving DecidableEq

/-- The /oauth/callback route.  `errorParam` and `code` are the query
parameters; `exchange` is the outcome of oauth2Client.getToken; `userinfo`
the outcome of the userinfo fetch; `gmailAccessOk` the result of
testGmailAccess (which never throws); `saveRes` is none when the token file
write succeeds and `some e` when it throws.  getTokens throws when no
refresh token is returned, and every throw is caught by the route and
rendered as the generic error page.  sendTokenUpdateNotification swallows
its own errors. -/
def oauthCallback (errorParam code : Option String)
    (exchange : Except JsError GoogleTokens)
    (userinfo : Except JsError GoogleUserInfo)
    (gmailAccessOk : Bool) (saveRes : Option JsError)
    (store : Option TokenFileData) : OAuthCallbackResult :=
  if jsTruthyS errorParam then
    ⟨.errorPage "Authorization was cancelled or denied", store, 0⟩
  else if !jsTruthyS code then
    ⟨.errorPage "No authorization code received", store, 0⟩
  else
    match exchange with
    | .error e =>
      ⟨.errorPage ("Failed to complete authorization: " ++ e.message),
       store, 0⟩
    | .ok tokens =>
      if !jsTruthyS tokens.refresh_token then
        ⟨.errorPage ("Failed to complete authorization: " ++
          "No refresh token received. Make sure to revoke existing access and re-authorize."),
         store, 0⟩
      else
        match userinfo with
        | .error e =>
          ⟨.errorPage ("Failed to complete authorization: " ++ e.message),
           store, 0⟩
        | .ok u =>
          if u.email != some requiredEmail then
            ⟨.wrongAccountPage u.email requiredEmail, store, 0⟩
          else
            let _ := gmailAccessOk
            match saveRes with
            | some e =>
              ⟨.errorPage ("Failed to complete authorization: " ++ e.message),
               store, 1⟩
            | none =>
              ⟨.successPage u.email,
               some ⟨tokens.refresh_token.getD "",
                     "OAuth2 callback - " ++
                       (u.email.getD "undefined")⟩,
               1⟩

/-! The POST /webhook/support route of src/index.ts. -/

/-- JS `a || b` on nullable strings: the left side wins when truthy. -/
def jsOrS (a b : Option String) : Option String :=
  if jsTruthyS a then a else b

/-- JS `s.replace(pat, repl)` with a string pattern replaces only the first
occurrence. -/
def replaceFirstChars (pat repl : List Char) : List Char → List Char
  | [] => if pat.isEmpty then repl else []
  | c :: cs =>
    if charsStarts pat (c :: cs) then repl ++ (c :: cs).drop pat.length
    else c :: replaceFirstChars pat repl cs

/-- JS `s.replace(pat, repl)` on strings. -/
def jsReplaceFirst (s pat repl : String) : String :=
  ⟨replaceFirstChars pat.data repl.data s.data⟩

/-- authenticateWebhook of src/index.ts: the x-webhook-secret header, or
else the authorization header with its first `Bearer ` stripped, must be
strictly equal to the configured secret. -/
def authenticateWebhook (secret : String) (xhdr authz : Option String) :
    Bool :=
  let provided := jsOrS xhdr (authz.map fun s => jsReplaceFirst s "Bearer " "")
  provided == some secret

/-- The inbound webhook request: the two auth headers and the body fields
(absent fields are none). -/
structure WebhookRequestModel where
  xWebhookSecret : Option String
  authHeader : Option String
  name : Option String
  email : Option String
  text : Option String
  language : Option String
deriving DecidableEq

/-- The JSON bodies the route can answer with. -/
inductive WebhookBody where
  | unauthorized
  | missingFields
  | okSuccess
  | tempUnavailable
  | busy
  | serverError
deriving DecidableEq

/-- Observable outcome of one POST /webhook/support request: HTTP status,
body kind, and whether the fallback queue was invoked for a failed
confirmation email. -/
structure WebhookResult where
  status : Nat
  body : WebhookBody
  fallbackInvoked : Bool
deriving DecidableEq

/-- The POST /webhook/support handler (after the rate-limit middleware).
Wrong or missing secret answers 401; a falsy name, email or text answers
400; otherwise the Telegram notification runs inside its own try/catch
(failures swallowed), the confirmation email is attempted when the Gmail
service exists (a failed or thrown send is handed to the fallback queue when
present) and the route answers 200 with success true regardless of the
email outcome.  `supportedLangs` models getSupportedLanguages of the
localization module; language selection never affects the response. -/
def webhookSupportHandler (secret : String) (req : WebhookRequestModel)
    (supportedLangs : List String)
    (telegramRes : Except JsError Nat)
    (gmailPresent : Bool) (emailRes : Except JsError GmailEmailResponse)
    (fallbackPresent : Bool) : WebhookResult :=
  if !authenticateWebhook secret req.xWebhookSecret req.authHeader then
    ⟨401, .unauthorized, false⟩
  else
    let lang := req.language.getD "en"
    let _selectedLanguage :=
      if supportedLangs.contains lang then lang else "en"
    if !jsTruthyS req.name || !jsTruthyS req.email || !jsTruthyS req.text then
      ⟨400, .missingFields, false⟩
    else
      let _ := telegramRes
      let fb :=
        if gmailPresent then
          match emailRes with
          | .ok r => !r.success && fallbackPresent
          | .error _ => fallbackPresent
        else false
      ⟨200, .okSuccess, fb⟩

/-! Exception-level embedding of the Token Guard and Delivery Engine public
operations.  Every site where the source can throw is made explicit in the
Except monad, and every try/catch of the source becomes a `jsTry`; the
no-raise property of the contract is then that these computations always
return `Except.ok`. -/

/-- A JS try/catch block. -/
def jsTry {α : Type} (body : Except JsError α)
    (handler : JsError → Except JsError α) : Except JsError α :=
  match body with
  | .ok a => .ok a
  | .error e => handler e

/-- Lifts a network-call outcome into the monad: `some e` throws `e`. -/
def probeE (probe : Option JsError) : Except JsError Unit :=
  match probe with
  | none => .ok ()
  | some e => .error e

/-- validateToken with its try/catch made explicit.  The catch handler is
total: the classifiers only read the string message and optional code and
status fields, and handleAuthError contains notification failures. -/
def validateTokenE (st : GuardState) (now : Int) (probe : Option JsError) :
    Except JsError ValidateResult :=
  if st.isTokenValid && decide (st.lastTokenCheck > now - 300000) then
    .ok ⟨st, true, 0, 0⟩
  else
    jsTry
      (do
        let _ ← probeE probe
        .ok ⟨⟨true, now, st.notificationSent⟩, true, 1, 0⟩)
      (fun e =>
        if isAuthenticationError e then
          let p := handleAuthError ⟨false, st.lastTokenCheck, st.notificationSent⟩
          .ok ⟨p.1, false, 1, p.2⟩
        else
          .ok ⟨st, false, 1, 0⟩)

/-- The sendEmail retry loop with the per-attempt try/catch made explicit. -/
def sendLoopE (oracle : Nat → Except JsError SendOk) :
    Nat → Nat → GuardState → Except JsError SendResult
  | _, 0, st => .ok ⟨st, maxRetriesResponse, 0, [], 0⟩
  | attempt, fuel + 1, st =>
    jsTry
      (do
        let r ← oracle attempt
        .ok (⟨⟨true, st.lastTokenCheck, false⟩, sentResponse r, 1, [], 0⟩ :
          SendResult))
      (fun e =>
        if isAuthenticationError e then
          let p := handleAuthError ⟨false, st.lastTokenCheck, st.notificationSent⟩
          .ok ⟨p.1, authFailResponse e, 1, [], p.2⟩
        else if fuel == 0 || !isRetryableError e then
          .ok ⟨st, attemptFailResponse e, 1, [], 0⟩
        else do
          let rest ← sendLoopE oracle (attempt + 1) fuel st
          .ok ⟨rest.state, rest.response, rest.attempts + 1,
               2 ^ (attempt - 1) * 1000 :: rest.waits, rest.notifications⟩)

/-- sendEmail with every throw site explicit. -/
def sendEmailE (st : GuardState) (now : Int) (probe : Option JsError)
    (oracle : Nat → Except JsError SendOk) (maxRetries : Nat) :
    Except JsError SendResult := do
  let v ← validateTokenE st now probe
  if !v.ok then
    .ok ⟨v.state, authRequiredResponse, 0, [], v.notifications⟩
  else
    let r ← sendLoopE oracle 1 maxRetries v.state
    .ok ⟨r.state, r.response, r.attempts, r.waits,
         v.notifications + r.notifications⟩

/-- refreshToken with its try/catch made explicit. -/
def refreshTokenE (st : GuardState) (now : Int) (refreshRes : Option JsError)
    (probe : Option JsError) : Except JsError RefreshResult :=
  jsTry
    (do
      let _ ← probeE refreshRes
      let v ← validateTokenE st now probe
      if v.ok then
        .ok (⟨⟨true, v.state.lastTokenCheck, false⟩, true, v.notifications⟩ :
          RefreshResult)
      else
        .ok ⟨v.state, false, v.notifications⟩)
    (fun e =>
      if isAuthenticationError e then
        let p := handleAuthError st
        .ok ⟨p.1, false, p.2⟩
      else
        .ok ⟨st, false, 0⟩)

/-! Failure-episode scenario built from validateToken, used to state the
single-notification-per-episode property. -/

/-- One auth-class failure event: a validateToken call whose live probe
fails with the auth-class error `e`; returns the new guard state and how
many escalation notifications fired. -/
def authFailStep (e : JsError) (now : Int) (st : GuardState) :
    GuardState × Nat :=
  let v := validateToken st now (some e)
  (v.state, v.notifications)

/-- A run of consecutive auth-class failure events with no intervening
recovery, accumulating the escalation notification count. -/
def authFailRun (e : JsError) (now : Int) : GuardState → Nat → GuardState × Nat
  | st, 0 => (st, 0)
  | st, n + 1 =>
    let p := authFailStep e now st
    let q := authFailRun e now p.1 n
    (q.1, p.2 + q.2)

/-! Claim theorems. -/

/-- Claim C10: every status object returned by getTokenStatus has
needsReAuth exactly equal to the negation of valid, so no caller can
observe a status that is both valid and needing re-authorization, or
neither. -/
theorem getTokenStatus_needsReAuth_negates_valid (st : GuardState) :
    (getTokenStatus st).needsReAuth = !(getTokenStatus st).valid := rfl

/-- Claim C7: whenever validateToken returns false, sendEmail returns the
AUTH_REQUIRED failure (success false, requiresReAuth true) immediately,
with zero attempts of the retry loop and no backoff waits. -/
theorem sendEmail_invalid_guard_no_attempt (st : GuardState) (now : Int)
    (probe : Option JsError) (oracle : Nat → Except JsError SendOk)
    (maxRetries : Nat)
    (h : (validateToken st now probe).ok = false) :
    sendEmail st now probe oracle maxRetries =
      ⟨(validateToken st now probe).state, authRequiredResponse, 0, [],
       (validateToken st now probe).notifications⟩ := by
  simp [sendEmail, h]

/-- Witness for C7 at a concrete invalid-token state and probe failure. -/
theorem sendEmail_invalid_guard_no_attempt_witness :
    sendEmail ⟨false, 0, true⟩ 1000000 (some ⟨none, none, "boom"⟩)
        (fun _ => .ok ⟨some "m", some "t"⟩) 3 =
      ⟨⟨false, 0, true⟩, authRequiredResponse, 0, [], 0⟩ := by
  have h := sendEmail_invalid_guard_no_attempt ⟨false, 0, true⟩ 1000000
    (some ⟨none, none, "boom"⟩) (fun _ => .ok ⟨some "m", some "t"⟩) 3
    (by decide)
  rw [h]
  decide

/-- Claim C3: with the cached flag true and the last check newer than five
minutes, validateToken returns true with no probe and the state (in
particular lastTokenCheck) unchanged; consequently two calls within the
grace window, the first of which actually probes successfully, perform
exactly one probe in total, and the second call leaves lastTokenCheck at
the probe time of the first call. -/
theorem validateToken_cache_short_circuit (st : GuardState)
    (now now1 now2 : Int) (probe probe2 : Option JsError) :
    (st.isTokenValid = true → st.lastTokenCheck > now - 300000 →
      validateToken st now probe = ⟨st, true, 0, 0⟩)
    ∧ (¬(st.isTokenValid = true ∧ st.lastTokenCheck > now1 - 300000) →
      now1 > now2 - 300000 →
      (validateToken st now1 none).probes +
        (validateToken (validateToken st now1 none).state now2 probe2).probes
          = 1
      ∧ (validateToken (validateToken st now1 none).state now2
          probe2).state.lastTokenCheck = now1) := by
  constructor
  · intro h1 h2
    simp [validateToken, h1, h2]
  · intro h1 h2
    have hc : (st.isTokenValid
        && decide (st.lastTokenCheck > now1 - 300000)) = false := by
      rcases Bool.eq_false_or_eq_true st.isTokenValid with h | h
      · simp only [h, Bool.true_and, decide_eq_false_iff_not]
        intro hgt
        exact h1 ⟨h, hgt⟩
      · simp [h]
    simp [validateToken, hc, h2]

/-- Witness for C3: a fresh cached state short-circuits, and a stale state
probed at time 1000000 is not probed again at time 1100000. -/
theorem validateToken_cache_short_circuit_witness :
    validateToken ⟨true, 900000, false⟩ 1000000 none =
        ⟨⟨true, 900000, false⟩, true, 0, 0⟩
    ∧ (validateToken ⟨true, 0, false⟩ 1000000 none).probes +
        (validateToken (validateToken ⟨true, 0, false⟩ 1000000 none).state
          1100000 none).probes = 1 := by
  constructor
  · exact (validateToken_cache_short_circuit ⟨true, 900000, false⟩
      1000000 0 0 none none).1 rfl (by decide)
  · exact ((validateToken_cache_short_circuit ⟨true, 0, false⟩
      0 1000000 1100000 none none).2 (by decide) (by decide)).1

/-- Claim C6: a re-authorization callback in which the authorized identity
differs from the allow-listed address terminates in the wrong-account page
without invoking saveRefreshToken, leaving the persisted credential record
unchanged. -/
theorem oauthCallback_wrong_account (errorParam code : Option String)
    (tokens : GoogleTokens) (u : GoogleUserInfo) (gmailAccessOk : Bool)
    (saveRes : Option JsError) (store : Option TokenFileData)
    (he : jsTruthyS errorParam = false) (hc : jsTruthyS code = true)
    (hrt : jsTruthyS tokens.refresh_token = true)
    (hu : u.email ≠ some requiredEmail) :
    oauthCallback errorParam code (.ok tokens) (.ok u) gmailAccessOk saveRes
        store =
      ⟨.wrongAccountPage u.email requiredEmail, store, 0⟩ := by
  simp [oauthCallback, he, hc, hrt, hu]

/-- Witness for C6 at a concrete wrong account with a populated store. -/
theorem oauthCallback_wrong_account_witness :
    oauthCallback none (some "authcode") (.ok ⟨some "rtok"⟩)
        (.ok ⟨some "intruder@gmail.com"⟩) true none
        (some ⟨"oldtok", "System"⟩) =
      ⟨.wrongAccountPage (some "intruder@gmail.com") requiredEmail,
       some ⟨"oldtok", "System"⟩, 0⟩ :=
  oauthCallback_wrong_account none (some "authcode") ⟨some "rtok"⟩
    ⟨some "intruder@gmail.com"⟩ true none (some ⟨"oldtok", "System"⟩)
    (by decide) (by decide) (by decide) (by decide)

/-- Helper: when attempts `attempt..attempt+k-1` fail with retryable
non-auth errors and attempt `attempt+k` fails with an auth-class error
inside the remaining fuel, the retry loop stops right after the auth
failure: `k+1` attempts, `k` backoff waits (all before the auth failure),
the auth failure response, the guard invalidated with notificationSent set,
and one escalation notification unless one was already pending. -/
theorem sendLoop_auth_stops (oracle : Nat → Except JsError SendOk) (F : Nat) :
    ∀ (k attempt : Nat) (st : GuardState) (e : JsError),
      k < F →
      (∀ j, j < k → ∃ e', oracle (attempt + j) = .error e' ∧
        isAuthenticationError e' = false ∧ isRetryableError e' = true) →
      oracle (attempt + k) = .error e →
      isAuthenticationError e = true →
      (sendLoop oracle attempt F st).state = ⟨false, st.lastTokenCheck, true⟩
      ∧ (sendLoop oracle attempt F st).response = authFailResponse e
      ∧ (sendLoop oracle attempt F st).attempts = k + 1
      ∧ (sendLoop oracle attempt F st).waits.length = k
      ∧ (sendLoop oracle attempt F st).notifications =
          (if st.notificationSent then 0 else 1) := by
  induction F with
  | zero => intro k attempt st e hk; exact absurd hk (Nat.not_lt_zero k)
  | succ F ih =>
    intro k attempt st e hk hpre hke hauth
    cases k with
    | zero =>
      rw [Nat.add_zero] at hke
      cases hns : st.notificationSent <;>
        simp [sendLoop, hke, hauth, handleAuthError, hns]
    | succ k' =>
      obtain ⟨e0, he0, hna, hr⟩ := hpre 0 (Nat.succ_pos k')
      rw [Nat.add_zero] at he0
      have hFb : (F == 0) = false := by
        have : F ≠ 0 := by omega
        simpa using this
      have ihx := ih k' (attempt + 1) st e (by omega)
        (fun j hj => by
          have h := hpre (j + 1) (by omega)
          rwa [show attempt + (j + 1) = attempt + 1 + j by omega] at h)
        (by rwa [show attempt + 1 + k' = attempt + (k' + 1) by omega])
        hauth
      simp [sendLoop, he0, hna, hr, hFb, ihx.1, ihx.2.1, ihx.2.2.1,
        ihx.2.2.2.1, ihx.2.2.2.2]

/-- Claim C1: when a provider-call attempt fails with an auth-class error
after any run of transient failures within maxRetries 3, sendEmail makes no
further attempt and no further backoff wait, returns the auth failure
response (success false, requiresReAuth true, no retryable marking exists)
and leaves the guard invalid; in particular an auth error on attempt 1 of 3
yields exactly one attempt and no wait. -/
theorem sendEmail_auth_short_circuit (st : GuardState) (now : Int)
    (probe : Option JsError) (oracle : Nat → Except JsError SendOk)
    (e : JsError) (k : Nat)
    (hok : (validateToken st now probe).ok = true)
    (hk : k < 3)
    (hpre : ∀ j, j < k → ∃ e', oracle (1 + j) = .error e' ∧
      isAuthenticationError e' = false ∧ isRetryableError e' = true)
    (hke : oracle (1 + k) = .error e)
    (hauth : isAuthenticationError e = true) :
    (sendEmail st now probe oracle 3).attempts = k + 1
    ∧ (sendEmail st now probe oracle 3).waits.length = k
    ∧ (sendEmail st now probe oracle 3).response = authFailResponse e
    ∧ (sendEmail st now probe oracle 3).state.isTokenValid = false
    ∧ (sendEmail st now probe oracle 3).state.notificationSent = true := by
  have h := sendLoop_auth_stops oracle 3 k 1 (validateToken st now probe).state
    e hk hpre hke hauth
  simp [sendEmail, hok, h.1, h.2.1, h.2.2.1, h.2.2.2.1]

/-- Witness for C1: an invalid_grant failure on attempt 1 of 3 from a
cached-valid guard performs exactly one attempt. -/
theorem sendEmail_auth_short_circuit_witness :
    (sendEmail ⟨true, 1000000, false⟩ 1000000 none
        (fun _ => .error ⟨some (.s "invalid_grant"), none, "invalid_grant"⟩)
        3).attempts = 0 + 1
    ∧ (sendEmail ⟨true, 1000000, false⟩ 1000000 none
        (fun _ => .error ⟨some (.s "invalid_grant"), none, "invalid_grant"⟩)
        3).waits.length = 0
    ∧ (sendEmail ⟨true, 1000000, false⟩ 1000000 none
        (fun _ => .error ⟨some (.s "invalid_grant"), none, "invalid_grant"⟩)
        3).response =
        authFailResponse ⟨some (.s "invalid_grant"), none, "invalid_grant"⟩
    ∧ (sendEmail ⟨true, 1000000, false⟩ 1000000 none
        (fun _ => .error ⟨some (.s "invalid_grant"), none, "invalid_grant"⟩)
        3).state.isTokenValid = false
    ∧ (sendEmail ⟨true, 1000000, false⟩ 1000000 none
        (fun _ => .error ⟨some (.s "invalid_grant"), none, "invalid_grant"⟩)
        3).state.notificationSent = true :=
  sendEmail_auth_short_circuit ⟨true, 1000000, false⟩ 1000000 none
    (fun _ => .error ⟨some (.s "invalid_grant"), none, "invalid_grant"⟩)
    ⟨some (.s "invalid_grant"), none, "invalid_grant"⟩ 0
    (by decide) (by decide) (fun j hj => absurd hj (Nat.not_lt_zero j))
    rfl (by decide)

/-- Claim C4: with maxRetries 3 and every attempt failing with a
transient-class error, sendEmail makes exactly three attempts with waits of
1000 ms then 2000 ms after the two non-final attempts, and returns the
captured non-auth failure (success false, requiresReAuth false). -/
theorem sendEmail_transient_exhausts (st : GuardState) (now : Int)
    (probe : Option JsError) (oracle : Nat → Except JsError SendOk)
    (e1 e2 e3 : JsError)
    (hok : (validateToken st now probe).ok = true)
    (ho1 : oracle 1 = .error e1) (hr1 : isRetryableError e1 = true)
    (hn1 : isAuthenticationError e1 = false)
    (ho2 : oracle 2 = .error e2) (hr2 : isRetryableError e2 = true)
    (hn2 : isAuthenticationError e2 = false)
    (ho3 : oracle 3 = .error e3) (hr3 : isRetryableError e3 = true)
    (hn3 : isAuthenticationError e3 = false) :
    (sendEmail st now probe oracle 3).attempts = 3
    ∧ (sendEmail st now probe oracle 3).waits = [1000, 2000]
    ∧ (sendEmail st now probe oracle 3).response = attemptFailResponse e3
    ∧ (sendEmail st now probe oracle 3).response.success = false
    ∧ (sendEmail st now probe oracle 3).response.requiresReAuth = false := by
  simp [sendEmail, hok, sendLoop, ho1, hr1, hn1, ho2, hr2, hn2, ho3, hn3,
    attemptFailResponse]

/-- Witness for C4: a provider answering HTTP 503 on all three attempts. -/
theorem sendEmail_transient_exhausts_witness :
    (sendEmail ⟨true, 1000000, false⟩ 1000000 none
        (fun _ => .error ⟨none, some (.n 503), "Service Unavailable"⟩)
        3).attempts = 3
    ∧ (sendEmail ⟨true, 1000000, false⟩ 1000000 none
        (fun _ => .error ⟨none, some (.n 503), "Service Unavailable"⟩)
        3).waits = [1000, 2000]
    ∧ (sendEmail ⟨true, 1000000, false⟩ 1000000 none
        (fun _ => .error ⟨none, some (.n 503), "Service Unavailable"⟩)
        3).response =
        attemptFailResponse ⟨none, some (.n 503), "Service Unavailable"⟩
    ∧ (sendEmail ⟨true, 1000000, false⟩ 1000000 none
        (fun _ => .error ⟨none, some (.n 503), "Service Unavailable"⟩)
        3).response.success = false
    ∧ (sendEmail ⟨true, 1000000, false⟩ 1000000 none
        (fun _ => .error ⟨none, some (.n 503), "Service Unavailable"⟩)
        3).response.requiresReAuth = false :=
  sendEmail_transient_exhausts ⟨true, 1000000, false⟩ 1000000 none
    (fun _ => .error ⟨none, some (.n 503), "Service Unavailable"⟩)
    ⟨none, some (.n 503), "Service Unavailable"⟩
    ⟨none, some (.n 503), "Service Unavailable"⟩
    ⟨none, some (.n 503), "Service Unavailable"⟩
    (by decide) rfl (by decide) (by decide) rfl (by decide) (by decide)
    rfl (by decide) (by decide)

/-- Helper: once the guard is invalid with a pending notification, further
auth-class failure events leave the state fixed and fire nothing. -/
theorem authFailRun_saturated (e : JsError) (now : Int)
    (hauth : isAuthenticationError e = true) (lc : Int) (n : Nat) :
    authFailRun e now ⟨false, lc, true⟩ n = (⟨false, lc, true⟩, 0) := by
  induction n with
  | zero => rfl
  | succ n ih =>
    simp [authFailRun, authFailStep, validateToken, hauth, handleAuthError,
      ih]

/-- Claim C2: any run of N consecutive auth-class failures starting from a
clear notification flag fires exactly one escalation notification and
leaves the flag set; a successful refreshToken restores liveness and clears
the flag (as does a successful send), so the next auth-class failure fires
exactly one new notification. -/
theorem auth_episode_single_notification (st stAny : GuardState)
    (now nowR nowNext : Int) (e eNext : JsError) (n m : Nat)
    (oracle : Nat → Except JsError SendOk) (r : SendOk)
    (hauth : isAuthenticationError e = true)
    (hauthN : isAuthenticationError eNext = true)
    (hstale : ¬(st.isTokenValid = true ∧ st.lastTokenCheck > now - 300000))
    (hns : st.notificationSent = false)
    (hn : 1 ≤ n)
    (hstaleR : ¬(nowR > nowNext - 300000))
    (hsOk : oracle 1 = .ok r) :
    (authFailRun e now st n).2 = 1
    ∧ (authFailRun e now st n).1 = ⟨false, st.lastTokenCheck, true⟩
    ∧ (refreshToken (authFailRun e now st n).1 nowR none none).ok = true
    ∧ (refreshToken (authFailRun e now st n).1 nowR none none).state =
        ⟨true, nowR, false⟩
    ∧ (authFailStep eNext nowNext
        (refreshToken (authFailRun e now st n).1 nowR none none).state).2 = 1
    ∧ (sendLoop oracle 1 (m + 1) stAny).state.notificationSent = false := by
  have hc : (st.isTokenValid
      && decide (st.lastTokenCheck > now - 300000)) = false := by
    rcases Bool.eq_false_or_eq_true st.isTokenValid with h | h
    · simp only [h, Bool.true_and, decide_eq_false_iff_not]
      intro hgt
      exact hstale ⟨h, hgt⟩
    · simp [h]
  obtain ⟨n', rfl⟩ : ∃ n', n = n' + 1 := ⟨n - 1, by omega⟩
  have hrun : authFailRun e now st (n' + 1) =
      (⟨false, st.lastTokenCheck, true⟩, 1) := by
    simp [authFailRun, authFailStep, validateToken, hc, hauth,
      handleAuthError, hns, authFailRun_saturated e now hauth]
  refine ⟨by simp [hrun], by simp [hrun], ?_, ?_, ?_, ?_⟩
  · simp [hrun, refreshToken, validateToken]
  · simp [hrun, refreshToken, validateToken]
  · have hfresh : (decide (nowR > nowNext - 300000)) = false := by
      simpa using hstaleR
    simp [hrun, refreshToken, validateToken, authFailStep, hfresh, hauthN,
      handleAuthError]
  · simp [sendLoop, hsOk]

/-- Witness for C2: two consecutive invalid_grant failures fire one
notification, a later successful refresh clears the flag, and the next
failure fires one more. -/
theorem auth_episode_single_notification_witness :
    (authFailRun ⟨some (.s "invalid_grant"), none, "invalid_grant"⟩ 1000000
        ⟨true, 0, false⟩ 2).2 = 1
    ∧ (authFailRun ⟨some (.s "invalid_grant"), none, "invalid_grant"⟩ 1000000
        ⟨true, 0, false⟩ 2).1 = ⟨false, 0, true⟩
    ∧ (refreshToken (authFailRun ⟨some (.s "invalid_grant"), none,
        "invalid_grant"⟩ 1000000 ⟨true, 0, false⟩ 2).1 2000000 none
        none).ok = true
    ∧ (refreshToken (authFailRun ⟨some (.s "invalid_grant"), none,
        "invalid_grant"⟩ 1000000 ⟨true, 0, false⟩ 2).1 2000000 none
        none).state = ⟨true, 2000000, false⟩
    ∧ (authFailStep ⟨some (.s "invalid_grant"), none, "invalid_grant"⟩
        3000000
        (refreshToken (authFailRun ⟨some (.s "invalid_grant"), none,
          "invalid_grant"⟩ 1000000 ⟨true, 0, false⟩ 2).1 2000000 none
          none).state).2 = 1
    ∧ (sendLoop (fun _ => .ok ⟨some "m", none⟩) 1 (2 + 1)
        ⟨false, 5, true⟩).state.notificationSent = false :=
  auth_episode_single_notification ⟨true, 0, false⟩ ⟨false, 5, true⟩
    1000000 2000000 3000000
    ⟨some (.s "invalid_grant"), none, "invalid_grant"⟩
    ⟨some (.s "invalid_grant"), none, "invalid_grant"⟩ 2 2
    (fun _ => .ok ⟨some "m", none⟩) ⟨some "m", none⟩
    (by decide) (by decide) (by decide) rfl (by omega) (by decide) rfl

/-- Helper: when every snapshot entry resends successfully, the drain loop
filters every snapshot entry out of the live list and counts them all as
successes. -/
theorem drainGo_all_ok (f : FallbackEntry → RetryOutcome) :
    ∀ (snap live : List FallbackEntry), (∀ x ∈ snap, f x = .ok) →
      drainGo f snap live =
        (live.filter (fun x => decide (x ∉ snap)), snap.length, 0) := by
  intro snap
  induction snap with
  | nil => intro live _; simp [drainGo]
  | cons e rest ih =>
    intro live hall
    have he : f e = .ok := hall e (by simp)
    have hrest : ∀ x ∈ rest, f x = .ok := fun x hx => hall x (by simp [hx])
    have hfilter :
        (live.filter (fun x => decide (x ≠ e))).filter
            (fun x => decide (x ∉ rest)) =
          live.filter (fun x => decide (x ∉ e :: rest)) := by
      rw [List.filter_filter]
      apply List.filter_congr
      intro x _
      simp [List.mem_cons, not_or, Bool.and_comm]
    simp only [drainGo, he, ih _ hrest]
    rw [hfilter]
    simp

/-- Helper: the failed counter of the drain loop counts exactly the snapshot
entries whose resend did not succeed. -/
theorem drainGo_failed_count (f : FallbackEntry → RetryOutcome) :
    ∀ (snap live : List FallbackEntry),
      (drainGo f snap live).2.2 =
        (snap.filter (fun x => decide (f x ≠ .ok))).length := by
  intro snap
  induction snap with
  | nil => intro live; simp [drainGo]
  | cons e rest ih =>
    intro live
    cases he : f e <;> simp [drainGo, he, ih]

/-- Helper: an entry of the live list whose resend does not succeed is still
in the live list after the drain loop. -/
theorem drainGo_keeps_failed (f : FallbackEntry → RetryOutcome) :
    ∀ (snap live : List FallbackEntry) (x : FallbackEntry),
      x ∈ live → f x ≠ .ok → x ∈ (drainGo f snap live).1 := by
  intro snap
  induction snap with
  | nil => intro live x hx _; simpa [drainGo] using hx
  | cons e rest ih =>
    intro live x hx hfx
    cases he : f e with
    | ok =>
      have hne : x ≠ e := fun h => hfx (h ▸ he)
      have hx' : x ∈ live.filter (fun y => decide (y ≠ e)) := by
        simp [List.mem_filter, hx, hne]
      simpa [drainGo, he] using ih _ x hx' hfx
    | failed => simpa [drainGo, he] using ih live x hx hfx
    | raised => simpa [drainGo, he] using ih live x hx hfx

/-- Claim C5: when every queued entry resends successfully, one
retryFailedEmails pass empties the live list and reports success equal to
the queue length with zero failures; in general the failed counter counts
exactly the entries whose resend failed, and every such entry is left in
the live list. -/
theorem retryFailedEmails_drain_convergence (f : FallbackEntry → RetryOutcome)
    (q : List FallbackEntry) :
    ((∀ x ∈ q, f x = .ok) →
      (retryFailedEmails f q).live = []
      ∧ (retryFailedEmails f q).succeeded = q.length
      ∧ (retryFailedEmails f q).failedCount = 0)
    ∧ (retryFailedEmails f q).failedCount =
        (q.filter (fun x => decide (f x ≠ .ok))).length
    ∧ (∀ x ∈ q, f x ≠ .ok → x ∈ (retryFailedEmails f q).live) := by
  cases q with
  | nil => simp [retryFailedEmails]
  | cons a q' =>
    refine ⟨?_, ?_, ?_⟩
    · intro hall
      have h := drainGo_all_ok f (a :: q') (a :: q') hall
      have hnil : (a :: q').filter (fun x => decide (x ∉ a :: q')) = [] := by
        apply List.eq_nil_iff_forall_not_mem.mpr
        intro x hx
        have hm := List.mem_filter.mp hx
        exact (of_decide_eq_true hm.2) hm.1
      rw [hnil] at h
      simp [retryFailedEmails, h]
    · simp [retryFailedEmails, drainGo_failed_count]
    · intro x hx hfx
      simpa [retryFailedEmails] using
        drainGo_keeps_failed f (a :: q') (a :: q') x hx hfx

/-- Witness for C5: a two-entry queue where both resends succeed drains to
empty with counters success two, failed zero; a one-entry queue whose
resend fails keeps the entry and counts one failure. -/
theorem retryFailedEmails_drain_convergence_witness :
    ((retryFailedEmails (fun _ => .ok)
        [⟨0, "a@x.com", "A", "help", false⟩,
         ⟨1, "b@x.com", "B", "hi", true⟩]).live = []
      ∧ (retryFailedEmails (fun _ => .ok)
          [⟨0, "a@x.com", "A", "help", false⟩,
           ⟨1, "b@x.com", "B", "hi", true⟩]).succeeded = 2
      ∧ (retryFailedEmails (fun _ => .ok)
          [⟨0, "a@x.com", "A", "help", false⟩,
           ⟨1, "b@x.com", "B", "hi", true⟩]).failedCount = 0)
    ∧ (retryFailedEmails (fun _ => .failed)
        [⟨0, "a@x.com", "A", "help", false⟩]).failedCount = 1
    ∧ ⟨0, "a@x.com", "A", "help", false⟩ ∈
        (retryFailedEmails (fun _ => .failed)
          [⟨0, "a@x.com", "A", "help", false⟩]).live := by
  refine ⟨?_, ?_, ?_⟩
  · have h := (retryFailedEmails_drain_convergence (fun _ => .ok)
      [⟨0, "a@x.com", "A", "help", false⟩,
       ⟨1, "b@x.com", "B", "hi", true⟩]).1 (by decide)
    exact ⟨h.1, h.2.1, h.2.2⟩
  · have h := (retryFailedEmails_drain_convergence (fun _ => .failed)
      [⟨0, "a@x.com", "A", "help", false⟩]).2.1
    simpa using h
  · exact (retryFailedEmails_drain_convergence (fun _ => .failed)
      [⟨0, "a@x.com", "A", "help", false⟩]).2.2
      ⟨0, "a@x.com", "A", "help", false⟩ (by decide) (by decide)

/-- Claim C9: the webhook route answers 401 Unauthorized on a wrong or
missing shared secret, 400 missing-required-fields when the secret is valid
but name, email or text is absent, and otherwise 200 with success true
regardless of the Telegram outcome and of whether the downstream
confirmation email succeeds, fails or throws. -/
theorem webhookSupport_dispatch (secret : String)
    (req : WebhookRequestModel) (langs : List String)
    (telegramRes : Except JsError Nat) (gmailPresent : Bool)
    (emailRes : Except JsError GmailEmailResponse) (fallbackPresent : Bool) :
    (authenticateWebhook secret req.xWebhookSecret req.authHeader = false →
      webhookSupportHandler secret req langs telegramRes gmailPresent
          emailRes fallbackPresent = ⟨401, .unauthorized, false⟩)
    ∧ (authenticateWebhook secret req.xWebhookSecret req.authHeader = true →
      (jsTruthyS req.name = false ∨ jsTruthyS req.email = false ∨
        jsTruthyS req.text = false) →
      webhookSupportHandler secret req langs telegramRes gmailPresent
          emailRes fallbackPresent = ⟨400, .missingFields, false⟩)
    ∧ (authenticateWebhook secret req.xWebhookSecret req.authHeader = true →
      jsTruthyS req.name = true → jsTruthyS req.email = true →
      jsTruthyS req.text = true →
      (webhookSupportHandler secret req langs telegramRes gmailPresent
          emailRes fallbackPresent).status = 200
      ∧ (webhookSupportHandler secret req langs telegramRes gmailPresent
          emailRes fallbackPresent).body = .okSuccess) := by
  refine ⟨?_, ?_, ?_⟩
  · intro h
    simp [webhookSupportHandler, h]
  · intro h hm
    rcases hm with hm | hm | hm <;> simp [webhookSupportHandler, h, hm]
  · intro h h1 h2 h3
    simp [webhookSupportHandler, h, h1, h2, h3]

/-- Witness for C9: a wrong secret answers 401, a valid secret with the
text field absent answers 400, and a valid bearer secret with all fields
answers 200 even though the confirmation email failed. -/
theorem webhookSupport_dispatch_witness :
    webhookSupportHandler "topsecret"
        ⟨some "wrong", none, some "A", some "a@x.com", some "help", none⟩
        ["en"] (.ok 7) true (.ok ⟨true, some "m", none, none, none, false⟩)
        true = ⟨401, .unauthorized, false⟩
    ∧ webhookSupportHandler "topsecret"
        ⟨some "topsecret", none, some "A", some "a@x.com", none, none⟩
        ["en"] (.ok 7) true (.ok ⟨true, some "m", none, none, none, false⟩)
        true = ⟨400, .missingFields, false⟩
    ∧ ((webhookSupportHandler "topsecret"
        ⟨none, some "Bearer topsecret", some "A", some "a@x.com",
         some "help", none⟩
        ["en"] (.error ⟨none, none, "telegram down"⟩) true
        (.ok ⟨false, none, none, some "quota", none, false⟩)
        true).status = 200
      ∧ (webhookSupportHandler "topsecret"
        ⟨none, some "Bearer topsecret", some "A", some "a@x.com",
         some "help", none⟩
        ["en"] (.error ⟨none, none, "telegram down"⟩) true
        (.ok ⟨false, none, none, some "quota", none, false⟩)
        true).body = .okSuccess) := by
  refine ⟨?_, ?_, ?_⟩
  · exact (webhookSupport_dispatch "topsecret"
      ⟨some "wrong", none, some "A", some "a@x.com", some "help", none⟩
      ["en"] (.ok 7) true (.ok ⟨true, some "m", none, none, none, false⟩)
      true).1 (by decide)
  · exact (webhookSupport_dispatch "topsecret"
      ⟨some "topsecret", none, some "A", some "a@x.com", none, none⟩
      ["en"] (.ok 7) true (.ok ⟨true, some "m", none, none, none, false⟩)
      true).2.1 (by decide) (by decide)
  · exact (webhookSupport_dispatch "topsecret"
      ⟨none, some "Bearer topsecret", some "A", some "a@x.com",
       some "help", none⟩
      ["en"] (.error ⟨none, none, "telegram down"⟩) true
      (.ok ⟨false, none, none, some "quota", none, false⟩)
      true).2.2 (by decide) (by decide) (by decide) (by decide)

/-- Helper: the monad law for a successful Except computation. -/
theorem exceptBindOk {α β : Type} (a : α) (f : α → Except JsError β) :
    ((Except.ok a : Except JsError α) >>= f) = f a := rfl

/-- Helper: the monad law for a thrown Except computation. -/
theorem exceptBindErr {α β : Type} (e : JsError) (f : α → Except JsError β) :
    ((Except.error e : Except JsError α) >>= f) = Except.error e := rfl

/-- Helper: the monadic validateToken always returns a structured result. -/
theorem validateTokenE_ok (st : GuardState) (now : Int)
    (probe : Option JsError) :
    validateTokenE st now probe = .ok (validateToken st now probe) := by
  unfold validateTokenE validateToken
  split
  · rfl
  · cases probe with
    | none => rfl
    | some e =>
      rw [show (do
            let _ ← probeE (some e)
            (Except.ok ⟨⟨true, now, st.notificationSent⟩, true, 1, 0⟩ :
              Except JsError ValidateResult)) = Except.error e from rfl]
      cases hA : isAuthenticationError e <;> simp [jsTry, hA]

/-- Helper: the monadic retry loop always returns a structured result. -/
theorem sendLoopE_ok (oracle : Nat → Except JsError SendOk) :
    ∀ (F attempt : Nat) (st : GuardState),
      sendLoopE oracle attempt F st = .ok (sendLoop oracle attempt F st) := by
  intro F
  induction F with
  | zero => intro attempt st; rfl
  | succ F ih =>
    intro attempt st
    cases ho : oracle attempt with
    | ok r =>
      simp only [sendLoopE, sendLoop, jsTry, ho]
      rfl
    | error e =>
      simp only [sendLoopE, sendLoop, ho]
      rw [show (do
            let r ← (Except.error e : Except JsError SendOk)
            (Except.ok ⟨⟨true, st.lastTokenCheck, false⟩, sentResponse r,
              1, [], 0⟩ : Except JsError SendResult)) =
          (Except.error e : Except JsError SendResult) from rfl]
      cases hA : isAuthenticationError e with
      | true => simp [jsTry, hA]
      | false =>
        cases hL : (F == 0 || !isRetryableError e) with
        | true => simp [jsTry, hA, hL]
        | false =>
          simp [jsTry, hA, hL, ih]
          rfl

/-- Claim C8: for every caught error object the Token Guard and Delivery
Engine public operations return structured results and never raise: the
exception-level embeddings of sendEmail, validateToken and refreshToken
always evaluate to Except.ok of the structured outcome. -/
theorem guard_engine_never_raise (st : GuardState) (now : Int)
    (probe refreshRes probeR : Option JsError)
    (oracle : Nat → Except JsError SendOk) (maxRetries : Nat) :
    validateTokenE st now probe = .ok (validateToken st now probe)
    ∧ sendEmailE st now probe oracle maxRetries =
        .ok (sendEmail st now probe oracle maxRetries)
    ∧ refreshTokenE st now refreshRes probeR =
        .ok (refreshToken st now refreshRes probeR) := by
  refine ⟨validateTokenE_ok st now probe, ?_, ?_⟩
  · unfold sendEmailE sendEmail
    rw [validateTokenE_ok st now probe, exceptBindOk]
    split
    · simp [*]
    · rw [sendLoopE_ok oracle maxRetries 1 (validateToken st now probe).state,
        exceptBindOk]
      simp [*]
  · cases refreshRes with
    | none =>
      unfold refreshTokenE refreshToken
      rw [show probeE none = (Except.ok () : Except JsError Unit) from rfl,
        exceptBindOk, validateTokenE_ok st now probeR, exceptBindOk]
      split <;> simp [jsTry, *]
    | some e =>
      unfold refreshTokenE refreshToken
      rw [show probeE (some e) = (Except.error e : Except JsError Unit)
          from rfl, exceptBindErr]
      cases hA : isAuthenticationError e <;> simp [jsTry, hA]

end BlockRoyale
